import Mathlib

/-!
Verification development for the `automeme` repository.

Shallow embedding of:
* `src/mcp_client.py` — the `MCPClient` class: `connect_to_server` and the
  tool-calling conversation loop `process_query`.
* `src/src/services/meme_generator.py` — the `create_meme` tool.

External collaborators (the Anthropic model API, the MCP tool provider, the
HTTP world and the filesystem) are modelled as explicit oracles/parameters:
the model is a round-indexed sequence of responses, a tool call is a function
returning `Except` (an `.error` models a raised Python exception), the HTTP
world maps the request parameters to a response, and the filesystem is the
list of existing paths.  Python's unbounded `while` loops take a fuel
parameter; every theorem assumes enough fuel.
-/

/-- A tool descriptor as assembled in `process_query` from `list_tools()`
(`{"name": ..., "description": ..., "input_schema": ...}`). -/
structure Tool where
  name : String
  description : String
  inputSchema : String
deriving DecidableEq, Repr

/-- One content block of a model response: `content.type == 'text'` or
`content.type == 'tool_use'`.  The `input` field is the rendered form of the
tool arguments (the Python code only ever interpolates `tool_args` into
f-strings, so a pre-rendered string is a faithful abstraction). -/
inductive ContentBlock where
  | text (t : String)
  | toolUse (name : String) (input : String)
deriving DecidableEq, Repr

/-- A conversation message `{"role": ..., "content": ...}`. -/
structure Message where
  role : String
  content : String
deriving DecidableEq, Repr

/-- The argument bundle of one `self.anthropic.messages.create(...)` call. -/
structure ModelRequest where
  model : String
  maxTokens : Nat
  system : String
  messages : List Message
  tools : List Tool
deriving DecidableEq, Repr

/-- Externally observable effects of `process_query`: one event per
`messages.create` call and one per `session.call_tool` call. -/
inductive Event where
  | modelCall (req : ModelRequest)
  | toolCall (name : String) (input : String)
deriving DecidableEq, Repr

/-- How one `process_query` run ends: a returned string, a raised exception
(`err` carries the exception text), or fuel exhaustion (an artifact of the
embedding; the Python loop is unbounded). -/
inductive Outcome where
  | ok (answer : String)
  | err (msg : String)
  | outOfFuel
deriving DecidableEq, Repr

/-- Result of a run: the outcome, the event trace, and the final value of the
local `conversation_history` (exposed for specification purposes). -/
structure QueryRun where
  outcome : Outcome
  events : List Event
  history : List Message
deriving DecidableEq, Repr

/-- `tools_description` (mcp_client.py lines 69-72). -/
def toolsDescription (tools : List Tool) : String :=
  String.intercalate "\n" (tools.map (fun t => "- " ++ t.name ++ ": " ++ t.description))

/-- The system prompt of the first `messages.create` call (lines 78-82). -/
def systemPromptInitial (toolsDesc : String) : String :=
  "You have access to the following tools that you can and should use if they are relevant to the user\x27s query:\n\n"
    ++ toolsDesc
    ++ "\n\nYou should use these tools to help users accomplish their goals. Don\x27t say you can\x27t do something if a tool exists to do it."

/-- The system prompt of every follow-up `messages.create` call (lines 127-131). -/
def systemPromptFollowup (toolsDesc : String) : String :=
  "You have access to the following tools that you can and should use:\n\n"
    ++ toolsDesc
    ++ "\n\nYou should use these tools to help users accomplish their goals. Don\x27t say you can\x27t do something if a tool exists to do it."

def modelName : String := "claude-3-5-sonnet-20241022"

def maxTokensLimit : Nat := 1000

/-- The first model request (lines 75-88). -/
def initialRequest (tools : List Tool) (query : String) : ModelRequest :=
  ⟨modelName, maxTokensLimit, systemPromptInitial (toolsDescription tools),
   [⟨"user", query⟩], tools⟩

/-- A follow-up model request (lines 124-137): `conversation_history` plus the
original query appended again as the newest user turn. -/
def followupRequest (tools : List Tool) (history : List Message) (query : String) : ModelRequest :=
  ⟨modelName, maxTokensLimit, systemPromptFollowup (toolsDescription tools),
   history ++ [⟨"user", query⟩], tools⟩

/-- The `final_text` entry made for a tool call (line 107):
`f"[Tool {tool_name} result: {result.content}]"`. -/
def toolEntry (name result : String) : String :=
  "[Tool " ++ name ++ " result: " ++ result ++ "]"

/-- The two history messages appended for one tool call (lines 110-117). -/
def toolUseMessages (name input result : String) : List Message :=
  [⟨"assistant", "I\x27m using the " ++ name ++ " tool with these parameters: " ++ input⟩,
   ⟨"user", "Tool result: " ++ result⟩]

/-- The mutable locals of the `for content in response.content` loop. -/
structure BlocksState where
  finalText : List String
  history : List Message
  hasToolCalls : Bool
deriving DecidableEq, Repr

/-- The `for content in response.content:` body (mcp_client.py lines 96-117).
`callTool` returning `.error e` models `session.call_tool` raising an
exception with text `e`: the loop stops at that block, appends nothing for it
(the appends on lines 107-117 sit after the call), and the third component
reports the pending exception. -/
def processBlocks (callTool : String → String → Except String String) :
    List ContentBlock → BlocksState → List Event → BlocksState × List Event × Option String
  | [], st, tr => (st, tr, none)
  | .text t :: rest, st, tr =>
      processBlocks callTool rest
        ⟨st.finalText ++ [t], st.history ++ [⟨"assistant", t⟩], st.hasToolCalls⟩ tr
  | .toolUse name input :: rest, st, tr =>
      match callTool name input with
      | .error e => (st, tr ++ [.toolCall name input], some e)
      | .ok result =>
          processBlocks callTool rest
            ⟨st.finalText ++ [toolEntry name result],
             st.history ++ toolUseMessages name input result,
             true⟩
            (tr ++ [.toolCall name input])

/-- The `while True` loop of `process_query` (lines 93-137).  `resps i` is the
model's `i`-th response; `next` is the index of the next response to fetch.
An un-caught exception from a tool call becomes `.err`. -/
def runLoop (resps : Nat → List ContentBlock) (callTool : String → String → Except String String)
    (tools : List Tool) (query : String) :
    Nat → Nat → List ContentBlock → BlocksState → List Event → QueryRun
  | 0, _, _, st, tr => ⟨.outOfFuel, tr, st.history⟩
  | fuel + 1, next, response, st, tr =>
      match processBlocks callTool response ⟨st.finalText, st.history, false⟩ tr with
      | (st2, tr2, some e) => ⟨.err e, tr2, st2.history⟩
      | (st2, tr2, none) =>
          if st2.hasToolCalls then
            runLoop resps callTool tools query fuel (next + 1) (resps next) st2
              (tr2 ++ [.modelCall (followupRequest tools st2.history query)])
          else
            ⟨.ok (String.intercalate "\n" st2.finalText), tr2, st2.history⟩

/-- `MCPClient.process_query` (mcp_client.py lines 58-139). -/
def processQuery (resps : Nat → List ContentBlock) (callTool : String → String → Except String String)
    (tools : List Tool) (query : String) (fuel : Nat) : QueryRun :=
  runLoop resps callTool tools query fuel 1 (resps 0)
    ⟨[], [], false⟩ [.modelCall (initialRequest tools query)]

/-- Effects of `connect_to_server` that happen after the extension check. -/
inductive ConnectEffect where
  | spawn (command : String) (scriptPath : String)
  | sessionInit
  | listTools
deriving DecidableEq, Repr

/-- Boolean check that `pattern` occurs at the head of `text`. -/
def startsWithChars (pattern text : List Char) : Bool :=
  match pattern, text with
  | [], _ => true
  | _ :: _, [] => false
  | a :: as, b :: bs => a == b && startsWithChars as bs

/-- Python `s.endswith(suf)`: suffix test on the character sequences. -/
def strEndsWith (s suf : String) : Bool :=
  startsWithChars suf.data.reverse s.data.reverse

/-- `MCPClient.connect_to_server` (mcp_client.py lines 20-56): the extension
check and, on success, the effect sequence (spawn the subprocess via
`stdio_client`, create and init the `ClientSession`, request the tool list).
On a failed check the `ValueError` is raised before any effect. -/
def connectToServer (serverScriptPath : String) : Except String Unit × List ConnectEffect :=
  let is_python := strEndsWith serverScriptPath ".py"
  let is_js := strEndsWith serverScriptPath ".js"
  if ¬ (is_python || is_js) then
    (.error "Server script must be a .py or .js file", [])
  else
    let command := if is_python then "python" else "node"
    (.ok (), [.spawn command serverScriptPath, .sessionInit, .listTools])

/-!  Specification-side views of the loop (used to state the claims). -/

/-- Concatenation of the images of `f`, written out to keep the development
independent of library naming. -/
def flatM (f : α → List β) : List α → List β
  | [] => []
  | a :: rest => f a ++ flatM f rest

/-- The one `final_text` entry produced for a content block, given that every
tool call returns (`f name input` being the returned `result.content`). -/
def entryOf (f : String → String → String) : ContentBlock → String
  | .text t => t
  | .toolUse n a => toolEntry n (f n a)

/-- The history messages produced for a content block. -/
def blockMessages (f : String → String → String) : ContentBlock → List Message
  | .text t => [⟨"assistant", t⟩]
  | .toolUse n a => toolUseMessages n a (f n a)

/-- The tool-call events of a response, in block order. -/
def toolEvents : List ContentBlock → List Event :=
  List.filterMap (fun b => match b with
    | .toolUse n a => some (.toolCall n a)
    | _ => none)

/-- Whether a response contains at least one `tool_use` block. -/
def hasToolUse (blocks : List ContentBlock) : Bool :=
  blocks.any (fun b => match b with | .toolUse _ _ => true | _ => false)

/-- The texts of the `TextBlock`s of a response, in order (what claim C1 says
the final answer is built from). -/
def textTexts : List ContentBlock → List String :=
  List.filterMap (fun b => match b with
    | .text t => some t
    | _ => none)

/-- Blocks of the `m` model responses `resps base, …, resps (base+m-1)`,
concatenated in round order. -/
def roundsBefore (resps : Nat → List ContentBlock) (base : Nat) : Nat → List ContentBlock
  | 0 => []
  | m + 1 => resps base ++ roundsBefore resps (base + 1) m

/-- Expected event trace of the loop from the round with response
`resps base`, given the history `hist` accumulated so far, when `K` further
tool rounds follow (round `base+K` is the first with no tool call). -/
def specEvents (f : String → String → String) (resps : Nat → List ContentBlock)
    (tools : List Tool) (query : String) : Nat → List Message → Nat → List Event
  | base, _, 0 => toolEvents (resps base)
  | base, hist, K + 1 =>
      toolEvents (resps base)
        ++ Event.modelCall
             (followupRequest tools (hist ++ flatM (blockMessages f) (resps base)) query)
        :: specEvents f resps tools query (base + 1)
             (hist ++ flatM (blockMessages f) (resps base)) K

/-- The model requests contained in an event trace, in order. -/
def modelRequests (tr : List Event) : List ModelRequest :=
  tr.filterMap (fun e => match e with
    | .modelCall r => some r
    | _ => none)

/-!  meme_generator.py: the `create_meme` tool. -/

/-- A Python value as it occurs in `meme_concept`: a string, an int, or a
dict with string keys. -/
inductive Val where
  | str (s : String)
  | num (n : Int)
  | dict (entries : List (String × Val))

/-- Python dict lookup (keys of an existing dict are unique, so first match). -/
def lookupKey (entries : List (String × Val)) (k : String) : Option Val :=
  match entries with
  | [] => none
  | (k2, v) :: rest => if k2 == k then some v else lookupKey rest k

mutual
/-- Python `str(v)` / f-string rendering of a value. -/
def pyStr : Val → String
  | .str s => s
  | .num n => toString n
  | .dict e => "\x7b" ++ pyReprEntries e ++ "\x7d"

/-- Python `repr(v)` (used for values nested inside a dict). -/
def pyRepr : Val → String
  | .str s => "\x27" ++ s ++ "\x27"
  | .num n => toString n
  | .dict e => "\x7b" ++ pyReprEntries e ++ "\x7d"

def pyReprEntries : List (String × Val) → String
  | [] => ""
  | [(k, v)] => "\x27" ++ k ++ "\x27: " ++ pyRepr v
  | (k, v) :: e2 :: rest =>
      "\x27" ++ k ++ "\x27: " ++ pyRepr v ++ ", " ++ pyReprEntries (e2 :: rest)
end

/-- `meme_concept[k]`: `KeyError`/`TypeError` become `.error`. -/
def getItem (v : Val) (k : String) : Except String Val :=
  match v with
  | .dict e =>
      match lookupKey e k with
      | some x => .ok x
      | none => .error ("KeyError: " ++ k)
  | _ => .error ("TypeError: value is not subscriptable")

/-- `meme_concept.get(k, d)` (`AttributeError` on a non-dict becomes `.error`;
unreachable after a successful `getItem`). -/
def getDefault (v : Val) (k : String) (d : Val) : Except String Val :=
  match v with
  | .dict e =>
      match lookupKey e k with
      | some x => .ok x
      | none => .ok d
  | _ => .error ("AttributeError: value has no attribute get")

/-- The request parameters built on meme_generator.py lines 63-69. -/
structure MemeParams where
  meme : Val
  top : Val
  bottom : Val
  font_size : Val
  font : Val

/-- Lines 63-69: build `params` from the (already unwrapped) concept, with
defaults `font_size=50`, `font="Impact"`.  Lookups happen in source order, so
the first missing mandatory key raises. -/
def buildParams (concept : Val) : Except String MemeParams := do
  let t ← getItem concept "template"
  let top ← getItem concept "top_text"
  let bottom ← getItem concept "bottom_text"
  let fsz ← getDefault concept "font_size" (.num 50)
  let fnt ← getDefault concept "font" (.str "Impact")
  .ok ⟨t, top, bottom, fsz, fnt⟩

/-- The HTTP response as `create_meme` observes it: status code, the
`content-type` header (`headers.get('content-type', '')`), and the body. -/
structure HttpResponse where
  statusCode : Nat
  contentType : String
  content : String
deriving DecidableEq, Repr

/-- Result of a successful `create_meme`: the chosen output path (the file
written) and the returned outcome string. -/
structure MemeSuccess where
  outputPath : String
  message : String
deriving DecidableEq, Repr

/-- Boolean substring occurrence on character lists. -/
def hasSubChars (needle : List Char) : List Char → Bool
  | [] => needle.isEmpty
  | c :: rest => startsWithChars needle (c :: rest) || hasSubChars needle rest

/-- Python `needle in haystack` on strings. -/
def strHasSub (haystack needle : String) : Bool :=
  hasSubChars needle.data haystack.data

/-- The `while os.path.exists(output_path):` loop (meme_generator.py lines
102-107), with the filesystem as the list of existing paths and a fuel bound
(the Python loop is unbounded but terminates on any finite filesystem). -/
def findPath (fs : List String) (base : String) : Nat → Nat → String → String
  | 0, _, out => out
  | fuel + 1, counter, out =>
      if fs.contains out then
        findPath fs base fuel (counter + 1) (base ++ "_" ++ toString counter ++ ".jpg")
      else out

/-- The candidate output paths, in probe order: `base.jpg`, `base_1.jpg`, …. -/
def numberedPath (base : String) : Nat → String
  | 0 => base ++ ".jpg"
  | j + 1 => base ++ "_" ++ toString (j + 1) ++ ".jpg"

/-- Line 85: the 500 failure message. -/
def svcErrorMsg : String :=
  "Meme generator service is experiencing internal issues. Please try again later."

/-- Line 87: the 401 failure message. -/
def authErrorMsg : String :=
  "Invalid API key. Please check your RAPID_API_KEY environment variable."

/-- Line 89: the 429 failure message. -/
def rateErrorMsg : String :=
  "Rate limit exceeded. Please try again later."

/-- `create_meme` after the unwrapping of line 59-60 (meme_generator.py lines
62-112).  `world` maps the request parameters to the HTTP response (the
request of lines 77-81 is a GET with exactly `params`; the URL, headers and
API key are fixed).  The status checks are lines 84-91; `raise_for_status`
raises exactly for 4xx/5xx, and its `HTTPError` is caught on line 114 and
re-raised as the generic `Failed to generate meme` failure (we render that
message as the status code; the original embeds `str(e)`).  The content-type
check is lines 94-96, and the save path logic lines 98-109. -/
def memeRequest (p : MemeParams) (world : MemeParams → HttpResponse)
    (fs : List String) (fuel : Nat) : Except String MemeSuccess :=
  let resp := world p
  if resp.statusCode = 500 then
    .error svcErrorMsg
  else if resp.statusCode = 401 then
    .error authErrorMsg
  else if resp.statusCode = 429 then
    .error rateErrorMsg
  else if 400 ≤ resp.statusCode ∧ resp.statusCode < 600 then
    .error ("Failed to generate meme: HTTP error " ++ toString resp.statusCode)
  else if ¬ strHasSub resp.contentType "image" then
    .error ("Unexpected response type: " ++ resp.contentType ++ ". Expected image data.")
  else
    let base := "generated_memes/" ++ pyStr p.meme
    let path := findPath fs base fuel 1 (base ++ ".jpg")
    .ok ⟨path, "Successfully generated meme! Saved to: " ++ path⟩

/-- Parameter building followed by the request/response handling. -/
def memeCore (concept : Val) (world : MemeParams → HttpResponse)
    (fs : List String) (fuel : Nat) : Except String MemeSuccess :=
  match buildParams concept with
  | .error e => .error e
  | .ok p => memeRequest p world fs fuel

/-- Lines 58-60: `if isinstance(meme_concept, dict) and 'meme_concept' in
meme_concept: meme_concept = meme_concept['meme_concept']`. -/
def stripConcept (v : Val) : Val :=
  match v with
  | .dict entries =>
      match lookupKey entries "meme_concept" with
      | some inner => inner
      | none => v
  | _ => v

/-- `create_meme` (meme_generator.py lines 25-117). -/
def create_meme (concept : Val) (world : MemeParams → HttpResponse)
    (fs : List String) (fuel : Nat) : Except String MemeSuccess :=
  memeCore (stripConcept concept) world fs fuel

/-!  Concrete fixtures used by counterexamples and witnesses. -/

/-- A model that answers with one text block and one tool call, then with a
final text block. -/
def cexResps : Nat → List ContentBlock := fun i =>
  if i = 0 then [.text "hi", .toolUse "t" "x"] else [.text "done"]

/-- A tool provider whose every call returns `"5"`. -/
def cexF : String → String → String := fun _ _ => "5"

/-- A model that issues one tool call and then stops. -/
def c3resps : Nat → List ContentBlock := fun i =>
  if i = 0 then [.toolUse "t" "x"] else []

/-- A well-formed un-wrapped meme concept. -/
def okConcept : Val :=
  .dict [("template", .str "Drake"), ("top_text", .str "A"), ("bottom_text", .str "B")]

/-- An innermost meme concept (template `Z`). -/
def innerConcept2 : Val :=
  .dict [("template", .str "Z"), ("top_text", .str "T2"), ("bottom_text", .str "B2")]

/-- A meme concept with template `A` that itself contains a `meme_concept`
key holding `innerConcept2`. -/
def innerConcept : Val :=
  .dict [("meme_concept", innerConcept2), ("template", .str "A"),
         ("top_text", .str "T"), ("bottom_text", .str "B")]

/-- `innerConcept` wrapped once more under `meme_concept`. -/
def wrappedConcept : Val := .dict [("meme_concept", innerConcept)]

/-- An HTTP world that always returns a 200 image response. -/
def constImageWorld : MemeParams → HttpResponse := fun _ => ⟨200, "image/jpeg", "IMG"⟩

/-!  Helper lemmas about the conversation loop. -/

theorem flatM_append (f : α → List β) (l1 l2 : List α) :
    flatM f (l1 ++ l2) = flatM f l1 ++ flatM f l2 := by
  induction l1 with
  | nil => simp [flatM]
  | cons a rest ih => simp [flatM, ih]

theorem roundsBefore_one (resps : Nat → List ContentBlock) (base : Nat) :
    roundsBefore resps base 1 = resps base := by
  simp [roundsBefore]

theorem toolEvents_eq_nil (blocks : List ContentBlock) (h : hasToolUse blocks = false) :
    toolEvents blocks = [] := by
  induction blocks with
  | nil => rfl
  | cons b rest ih =>
      cases b with
      | text t =>
          have hr : hasToolUse rest = false := by
            simpa [hasToolUse] using h
          simpa [toolEvents] using ih hr
      | toolUse n a => simp [hasToolUse] at h

theorem modelRequests_toolEvents (blocks : List ContentBlock) :
    modelRequests (toolEvents blocks) = [] := by
  induction blocks with
  | nil => rfl
  | cons b rest ih => cases b <;> simpa [toolEvents, modelRequests] using ih

theorem modelRequests_append (l1 l2 : List Event) :
    modelRequests (l1 ++ l2) = modelRequests l1 ++ modelRequests l2 :=
  List.filterMap_append l1 l2 _

theorem modelRequests_cons_modelCall (r : ModelRequest) (tr : List Event) :
    modelRequests (.modelCall r :: tr) = r :: modelRequests tr := by
  simp [modelRequests]

/-- What one pass of the `for content in response.content` loop does when
every tool call returns: one `final_text` entry per block, the per-block
history messages appended in order, `has_tool_calls` set iff some block is a
tool use, one tool-call event per tool-use block, no pending exception. -/
theorem processBlocks_ok (f : String → String → String) (blocks : List ContentBlock)
    (st : BlocksState) (tr : List Event) :
    processBlocks (fun n a => .ok (f n a)) blocks st tr =
      (⟨st.finalText ++ blocks.map (entryOf f),
        st.history ++ flatM (blockMessages f) blocks,
        st.hasToolCalls || hasToolUse blocks⟩,
       tr ++ toolEvents blocks, none) := by
  induction blocks generalizing st tr with
  | nil => simp [processBlocks, hasToolUse, toolEvents, flatM]
  | cons b rest ih =>
      cases b with
      | text t =>
          simp [processBlocks, ih, entryOf, blockMessages, hasToolUse, toolEvents, flatM,
            List.append_assoc]
      | toolUse n a =>
          simp [processBlocks, ih, entryOf, blockMessages, hasToolUse, toolEvents, flatM,
            List.append_assoc]

/-- Master characterization of the `while True` loop when every tool call
returns.  `K` is the number of tool rounds still ahead: responses
`resps base, …, resps (base+K-1)` contain tool calls, `resps (base+K)` does
not.  The loop returns the newline-join of all accumulated entries, emits
the expected trace and leaves the expected history. -/
theorem runLoop_spec (f : String → String → String) (resps : Nat → List ContentBlock)
    (tools : List Tool) (query : String) :
    ∀ (K base fuel : Nat) (st : BlocksState) (tr : List Event),
      (∀ j, j < K → hasToolUse (resps (base + j)) = true) →
      hasToolUse (resps (base + K)) = false →
      K < fuel →
      runLoop resps (fun n a => .ok (f n a)) tools query fuel (base + 1) (resps base) st tr =
        ⟨.ok (String.intercalate "\n"
                (st.finalText ++ (roundsBefore resps base (K + 1)).map (entryOf f))),
         tr ++ specEvents f resps tools query base st.history K,
         st.history ++ flatM (blockMessages f) (roundsBefore resps base (K + 1))⟩ := by
  intro K
  induction K with
  | zero =>
      intro base fuel st tr hrounds hlast hfuel
      obtain ⟨f2, rfl⟩ : ∃ f2, fuel = f2 + 1 := ⟨fuel - 1, by omega⟩
      simp only [runLoop]
      rw [processBlocks_ok]
      have hl : hasToolUse (resps base) = false := by simpa using hlast
      simp [hl, specEvents, roundsBefore, flatM_append, flatM]
  | succ K ih =>
      intro base fuel st tr hrounds hlast hfuel
      obtain ⟨f2, rfl⟩ : ∃ f2, fuel = f2 + 1 := ⟨fuel - 1, by omega⟩
      have h0 : hasToolUse (resps base) = true := by simpa using hrounds 0 (by omega)
      simp only [runLoop]
      rw [processBlocks_ok]
      simp only [Bool.false_or, h0, if_true]
      have ih2 := ih (base + 1) f2
        ⟨st.finalText ++ (resps base).map (entryOf f),
         st.history ++ flatM (blockMessages f) (resps base), true⟩
        (tr ++ toolEvents (resps base)
          ++ [.modelCall (followupRequest tools
                (st.history ++ flatM (blockMessages f) (resps base)) query)])
        (by
          intro j hj
          have := hrounds (j + 1) (by omega)
          rwa [show base + (j + 1) = base + 1 + j by omega] at this)
        (by
          have := hlast
          rwa [show base + (K + 1) = base + 1 + K by omega] at this)
        (by omega)
      rw [ih2]
      simp [roundsBefore, specEvents, flatM_append, List.map_append, List.append_assoc]

/-- The model requests of the expected trace: every follow-up request uses
the follow-up system prompt, the same tool set, and the history accumulated
through the corresponding round with the original query re-appended. -/
theorem modelRequests_specEvents (f : String → String → String)
    (resps : Nat → List ContentBlock) (tools : List Tool) (query : String) :
    ∀ (K base : Nat) (hist : List Message),
      modelRequests (specEvents f resps tools query base hist K) =
        (List.range K).map (fun i =>
          followupRequest tools
            (hist ++ flatM (blockMessages f) (roundsBefore resps base (i + 1))) query) := by
  intro K
  induction K with
  | zero => intro base hist; simp [specEvents, modelRequests_toolEvents]
  | succ K ih =>
      intro base hist
      have hmaps :
          (fun i => followupRequest tools
              (hist ++ flatM (blockMessages f) (resps base)
                ++ flatM (blockMessages f) (roundsBefore resps (base + 1) (i + 1))) query) =
            ((fun i => followupRequest tools
              (hist ++ flatM (blockMessages f) (roundsBefore resps base (i + 1))) query)
              ∘ (fun i => i + 1)) := by
        funext i
        simp [Function.comp, roundsBefore, flatM_append, List.append_assoc]
      calc modelRequests (specEvents f resps tools query base hist (K + 1))
          = followupRequest tools (hist ++ flatM (blockMessages f) (resps base)) query
              :: modelRequests (specEvents f resps tools query (base + 1)
                   (hist ++ flatM (blockMessages f) (resps base)) K) := by
            simp only [specEvents]
            rw [modelRequests_append, modelRequests_toolEvents, modelRequests_cons_modelCall]
            simp
        _ = followupRequest tools (hist ++ flatM (blockMessages f) (resps base)) query
              :: (List.range K).map (fun i =>
                   followupRequest tools
                     (hist ++ flatM (blockMessages f) (resps base)
                       ++ flatM (blockMessages f) (roundsBefore resps (base + 1) (i + 1))) query) := by
            rw [ih]
        _ = (List.range (K + 1)).map (fun i =>
              followupRequest tools
                (hist ++ flatM (blockMessages f) (roundsBefore resps base (i + 1))) query) := by
            rw [List.range_succ_eq_map]
            simp only [List.map_cons, List.map_map]
            rw [hmaps]
            simp [roundsBefore, flatM_append]

/-!  Claim theorems. -/

/-- C1 (counterexample): the claim says the string returned by
`process_query` is the newline-join of exactly the TextBlock texts and that
no other entries appear, but line 107 also appends a
`[Tool <name> result: ...]` entry to `final_text` for every tool call: on a
run whose blocks are `text "hi"`, `toolUse "t" "x"` (result `"5"`) and then
`text "done"`, the returned string is not the join of the text-block texts. -/
theorem c1_counterexample :
    (processQuery cexResps (fun n a => .ok (cexF n a)) [] "q" 5).outcome =
      .ok "hi\n[Tool t result: 5]\ndone" ∧
    ("hi\n[Tool t result: 5]\ndone" : String) ≠
      String.intercalate "\n" (textTexts (roundsBefore cexResps 0 2)) :=
  ⟨rfl, by decide⟩

/-- C1 (amended): over all rounds, the string returned by `process_query` is
the newline-join, in original block order, of one entry per content block:
the TextBlock texts, and a `[Tool <name> result: <result>]` entry for every
ToolCallBlock (see `entryOf`); proved for runs in which every tool call
returns, `K` being the number of tool rounds. -/
theorem c1_final_answer (f : String → String → String) (resps : Nat → List ContentBlock)
    (tools : List Tool) (query : String) (K fuel : Nat)
    (hrounds : ∀ j, j < K → hasToolUse (resps j) = true)
    (hlast : hasToolUse (resps K) = false)
    (hfuel : K < fuel) :
    (processQuery resps (fun n a => .ok (f n a)) tools query fuel).outcome =
      .ok (String.intercalate "\n" ((roundsBefore resps 0 (K + 1)).map (entryOf f))) := by
  have h := runLoop_spec f resps tools query K 0 fuel ⟨[], [], false⟩
    [.modelCall (initialRequest tools query)]
    (fun j hj => by rw [Nat.zero_add]; exact hrounds j hj)
    (by rw [Nat.zero_add]; exact hlast) hfuel
  exact congrArg QueryRun.outcome h

/-- Witness for `c1_final_answer` at a concrete run with one tool round. -/
theorem c1_final_answer_witness :
    (processQuery cexResps (fun n a => .ok (cexF n a)) [] "q" 5).outcome =
      .ok (String.intercalate "\n" ((roundsBefore cexResps 0 2).map (entryOf cexF))) :=
  c1_final_answer cexF cexResps [] "q" 1 5 (by decide) (by decide) (by decide)

/-- C2 (counterexample): the claim says a failing tool invocation never
raises out of `process_query`, but there is no `try/except` around
`session.call_tool` (line 106): a call that raises `"transport failure"`
propagates out of `process_query` (outcome `.err`), and no
`[Tool <name> result: <error>]` entry is produced. -/
theorem c2_counterexample :
    (processQuery (fun _ => [.toolUse "t" "x"]) (fun _ _ => .error "transport failure")
        [] "q" 3).outcome = .err "transport failure" :=
  rfl

/-- C2 (amended): a tool-invocation failure is not recovered inside
`process_query`: whenever processing the current response's blocks hits a
raising call (pending exception `e`), the loop immediately ends with that
exception raised to the caller, leaving the history as accumulated before
the failed call. -/
theorem c2_propagation (resps : Nat → List ContentBlock)
    (callTool : String → String → Except String String) (tools : List Tool)
    (query : String) (fuel next : Nat) (response : List ContentBlock)
    (st st2 : BlocksState) (tr tr2 : List Event) (e : String)
    (h : processBlocks callTool response ⟨st.finalText, st.history, false⟩ tr =
      (st2, tr2, some e)) :
    runLoop resps callTool tools query (fuel + 1) next response st tr =
      ⟨.err e, tr2, st2.history⟩ := by
  simp only [runLoop, h]

/-- Witness for `c2_propagation` at a concrete failing call. -/
theorem c2_propagation_witness :
    runLoop (fun _ => []) (fun _ _ => .error "boom") [] "q" 1 1 [.toolUse "t" "x"]
        ⟨[], [], false⟩ [] =
      ⟨.err "boom", [.toolCall "t" "x"], []⟩ :=
  c2_propagation (fun _ => []) (fun _ _ => .error "boom") [] "q" 0 1 [.toolUse "t" "x"]
    ⟨[], [], false⟩ ⟨[], [], false⟩ [] [.toolCall "t" "x"] "boom" rfl

/-- C3 (counterexample): the claim says follow-up requests use the same
system prompt as the first request, but the first prompt (line 78) contains
"if they are relevant to the user's query" while the follow-up prompt
(line 127) does not: on a concrete run the two issued requests carry
different system strings. -/
theorem c3_counterexample :
    (modelRequests (processQuery c3resps (fun _ _ => .ok "r") [] "q" 3).events).map
        ModelRequest.system =
      [systemPromptInitial (toolsDescription []), systemPromptFollowup (toolsDescription [])] ∧
    systemPromptInitial (toolsDescription []) ≠ systemPromptFollowup (toolsDescription []) :=
  ⟨rfl, by decide⟩

/-- C3 (amended): every follow-up request uses a system prompt recomputed
from the same tool descriptions — identical across all follow-up rounds but
differing from the first request's prompt by fixed wording — the same tool
descriptor set, and messages equal to the accumulated history with the
original user query appended again as the newest user turn (`followupRequest`
spells this out). -/
theorem c3_followup_requests (f : String → String → String)
    (resps : Nat → List ContentBlock) (tools : List Tool) (query : String) (K fuel : Nat)
    (hrounds : ∀ j, j < K → hasToolUse (resps j) = true)
    (hlast : hasToolUse (resps K) = false)
    (hfuel : K < fuel) :
    modelRequests (processQuery resps (fun n a => .ok (f n a)) tools query fuel).events =
      initialRequest tools query ::
        (List.range K).map (fun i =>
          followupRequest tools
            (flatM (blockMessages f) (roundsBefore resps 0 (i + 1))) query) := by
  have h := runLoop_spec f resps tools query K 0 fuel ⟨[], [], false⟩
    [.modelCall (initialRequest tools query)]
    (fun j hj => by rw [Nat.zero_add]; exact hrounds j hj)
    (by rw [Nat.zero_add]; exact hlast) hfuel
  have h2 : modelRequests
      (processQuery resps (fun n a => .ok (f n a)) tools query fuel).events =
      modelRequests (Event.modelCall (initialRequest tools query)
        :: specEvents f resps tools query 0 [] K) :=
    congrArg (fun r => modelRequests r.events) h
  rw [h2, modelRequests_cons_modelCall, modelRequests_specEvents]
  simp

/-- Witness for `c3_followup_requests` at a concrete run with one tool round. -/
theorem c3_followup_requests_witness :
    modelRequests (processQuery c3resps (fun _ _ => .ok "r") [] "q" 3).events =
      initialRequest [] "q" ::
        (List.range 1).map (fun i =>
          followupRequest []
            (flatM (blockMessages (fun _ _ => "r")) (roundsBefore c3resps 0 (i + 1))) "q") :=
  c3_followup_requests (fun _ _ => "r") c3resps [] "q" 1 3
    (by decide) (by decide) (by decide)

/-- C4 (counterexample): the claim says a response with N ToolCallBlocks
always leads to exactly N provider calls, but a raising invocation stops the
block loop: a response with two tool blocks whose first call raises produces
only one tool-call event (and no further model call). -/
theorem c4_counterexample :
    (toolEvents [ContentBlock.toolUse "a" "1", ContentBlock.toolUse "b" "2"]).length = 2 ∧
    (processQuery (fun _ => [.toolUse "a" "1", .toolUse "b" "2"])
        (fun n _ => if n == "a" then .error "boom" else .ok "r") [] "q" 3).events =
      [.modelCall (initialRequest [] "q"), .toolCall "a" "1"] :=
  ⟨rfl, rfl⟩

/-- C4 (amended): provided every invocation returns, the event trace of
`process_query` is exactly: the initial model call, then, for each round, one
tool-call event per ToolCallBlock of that round's response, sequentially in
the order the blocks appeared, followed by the next model call
(`specEvents` spells out this interleaving). -/
theorem c4_trace (f : String → String → String) (resps : Nat → List ContentBlock)
    (tools : List Tool) (query : String) (K fuel : Nat)
    (hrounds : ∀ j, j < K → hasToolUse (resps j) = true)
    (hlast : hasToolUse (resps K) = false)
    (hfuel : K < fuel) :
    (processQuery resps (fun n a => .ok (f n a)) tools query fuel).events =
      Event.modelCall (initialRequest tools query)
        :: specEvents f resps tools query 0 [] K := by
  have h := runLoop_spec f resps tools query K 0 fuel ⟨[], [], false⟩
    [.modelCall (initialRequest tools query)]
    (fun j hj => by rw [Nat.zero_add]; exact hrounds j hj)
    (by rw [Nat.zero_add]; exact hlast) hfuel
  exact congrArg QueryRun.events h

/-- Witness for `c4_trace` at a concrete run with one tool round. -/
theorem c4_trace_witness :
    (processQuery cexResps (fun n a => .ok (cexF n a)) [] "q" 5).events =
      Event.modelCall (initialRequest [] "q")
        :: specEvents cexF cexResps [] "q" 0 [] 1 :=
  c4_trace cexF cexResps [] "q" 1 5 (by decide) (by decide) (by decide)

/-- C5: the loop terminates in the first round whose response has no
ToolCallBlock: with `K` tool rounds, exactly `K + 1` model calls are issued;
and when the very first response has no tool block (`K = 0`), the whole trace
is the single initial model call — one model call, no tool invocation. -/
theorem c5_termination (f : String → String → String) (resps : Nat → List ContentBlock)
    (tools : List Tool) (query : String) (K fuel : Nat)
    (hrounds : ∀ j, j < K → hasToolUse (resps j) = true)
    (hlast : hasToolUse (resps K) = false)
    (hfuel : K < fuel) :
    (modelRequests
        (processQuery resps (fun n a => .ok (f n a)) tools query fuel).events).length =
      K + 1 ∧
    (K = 0 →
      (processQuery resps (fun n a => .ok (f n a)) tools query fuel).events =
        [Event.modelCall (initialRequest tools query)]) := by
  have h := runLoop_spec f resps tools query K 0 fuel ⟨[], [], false⟩
    [.modelCall (initialRequest tools query)]
    (fun j hj => by rw [Nat.zero_add]; exact hrounds j hj)
    (by rw [Nat.zero_add]; exact hlast) hfuel
  constructor
  · have h2 : modelRequests
        (processQuery resps (fun n a => .ok (f n a)) tools query fuel).events =
        modelRequests (Event.modelCall (initialRequest tools query)
          :: specEvents f resps tools query 0 [] K) :=
      congrArg (fun r => modelRequests r.events) h
    rw [h2, modelRequests_cons_modelCall, modelRequests_specEvents]
    simp
  · intro hK0
    subst hK0
    have h3 : (processQuery resps (fun n a => .ok (f n a)) tools query fuel).events =
        Event.modelCall (initialRequest tools query)
          :: specEvents f resps tools query 0 [] 0 :=
      congrArg QueryRun.events h
    rw [h3]
    have h4 : toolEvents (resps 0) = [] := toolEvents_eq_nil _ hlast
    simp [specEvents, h4]

/-- Witness for `c5_termination` at a concrete run with no tool round. -/
theorem c5_termination_witness :
    (modelRequests
        (processQuery (fun _ => [.text "hello"]) (fun _ _ => .ok "r") [] "q" 2).events).length =
      0 + 1 ∧
    (0 = 0 →
      (processQuery (fun _ => [.text "hello"]) (fun _ _ => .ok "r") [] "q" 2).events =
        [Event.modelCall (initialRequest [] "q")]) :=
  c5_termination (fun _ _ => "r") (fun _ => [.text "hello"]) [] "q" 0 2
    (by decide) (by decide) (by decide)

/-- C6: the conversation history is append-only and mirrors block-processing
order: block processing turns a history `h` into `h ++ Δ` where `Δ` has, per
TextBlock, one assistant message with its text and, per ToolCallBlock, the
synthetic assistant message describing the invocation followed by the
synthetic user message carrying the tool's result (see `blockMessages`); the
final history of a full run is exactly the concatenation of these deltas over
all blocks of all rounds, nothing reordered, removed or deduplicated. -/
theorem c6_history (f : String → String → String) (resps : Nat → List ContentBlock)
    (tools : List Tool) (query : String) (K fuel : Nat)
    (hrounds : ∀ j, j < K → hasToolUse (resps j) = true)
    (hlast : hasToolUse (resps K) = false)
    (hfuel : K < fuel) :
    (processQuery resps (fun n a => .ok (f n a)) tools query fuel).history =
      flatM (blockMessages f) (roundsBefore resps 0 (K + 1)) ∧
    (∀ (blocks : List ContentBlock) (st : BlocksState) (tr : List Event),
      (processBlocks (fun n a => .ok (f n a)) blocks st tr).1.history =
        st.history ++ flatM (blockMessages f) blocks) := by
  have h := runLoop_spec f resps tools query K 0 fuel ⟨[], [], false⟩
    [.modelCall (initialRequest tools query)]
    (fun j hj => by rw [Nat.zero_add]; exact hrounds j hj)
    (by rw [Nat.zero_add]; exact hlast) hfuel
  refine ⟨congrArg QueryRun.history h, ?_⟩
  intro blocks st tr
  rw [processBlocks_ok]

/-- Witness for `c6_history` at a concrete run with one tool round. -/
theorem c6_history_witness :
    (processQuery cexResps (fun n a => .ok (cexF n a)) [] "q" 5).history =
      flatM (blockMessages cexF) (roundsBefore cexResps 0 2) ∧
    (∀ (blocks : List ContentBlock) (st : BlocksState) (tr : List Event),
      (processBlocks (fun n a => .ok (cexF n a)) blocks st tr).1.history =
        st.history ++ flatM (blockMessages cexF) blocks) :=
  c6_history cexF cexResps [] "q" 1 5 (by decide) (by decide) (by decide)

/-- C7: `connect_to_server` with a path ending in neither `.py` nor `.js`
raises `ValueError("Server script must be a .py or .js file")` before any
effect: no subprocess spawn, no transport, no session. -/
theorem c7_unsupported_script (path : String)
    (hpy : strEndsWith path ".py" = false) (hjs : strEndsWith path ".js" = false) :
    connectToServer path = (.error "Server script must be a .py or .js file", []) := by
  unfold connectToServer
  simp [hpy, hjs]

/-- Witness for `c7_unsupported_script` at `"server.txt"`. -/
theorem c7_unsupported_script_witness :
    connectToServer "server.txt" = (.error "Server script must be a .py or .js file", []) :=
  c7_unsupported_script "server.txt" (by decide) (by decide)

/-!  Helper lemma for the collision-avoidance loop. -/

/-- The `while os.path.exists` loop probes `base.jpg`, `base_1.jpg`, … in
order and returns the first candidate not on the filesystem: starting from
candidate `c` with counter `c + 1`, if the next `m` candidates exist and the
`(c+m)`-th does not, the loop returns the `(c+m)`-th. -/
theorem findPath_spec (fs : List String) (base : String) :
    ∀ (m c fuel : Nat), m < fuel →
      (∀ i, i < m → fs.contains (numberedPath base (c + i)) = true) →
      fs.contains (numberedPath base (c + m)) = false →
      findPath fs base fuel (c + 1) (numberedPath base c) = numberedPath base (c + m) := by
  intro m
  induction m with
  | zero =>
      intro c fuel hf _ hfree
      obtain ⟨f2, rfl⟩ : ∃ f2, fuel = f2 + 1 := ⟨fuel - 1, by omega⟩
      rw [Nat.add_zero] at hfree
      simp only [findPath]
      rw [hfree]
      simp
  | succ m ih =>
      intro c fuel hf hbusy hfree
      obtain ⟨f2, rfl⟩ : ∃ f2, fuel = f2 + 1 := ⟨fuel - 1, by omega⟩
      have h0 : fs.contains (numberedPath base c) = true := by
        simpa using hbusy 0 (by omega)
      simp only [findPath]
      rw [h0, if_pos rfl]
      have hcand : base ++ "_" ++ toString (c + 1) ++ ".jpg" = numberedPath base (c + 1) := rfl
      rw [hcand, show c + (m + 1) = c + 1 + m by omega]
      exact ih (c + 1) f2 (by omega)
        (fun i hi => by
          have := hbusy (i + 1) (by omega)
          rwa [show c + (i + 1) = c + 1 + i by omega] at this)
        (by rwa [show c + (m + 1) = c + 1 + m by omega] at hfree)

/-- C8 (counterexample): the claim speaks of every non-2xx status, but only
4xx/5xx statuses raise: a 301 response whose body is an image is treated as
success and saved. -/
theorem c8_counterexample :
    create_meme okConcept (fun _ => ⟨301, "image/jpeg", "IMG"⟩) [] 5 =
      .ok ⟨"generated_memes/Drake.jpg",
           "Successfully generated meme! Saved to: generated_memes/Drake.jpg"⟩ :=
  rfl

/-- C8 (amended): every 4xx/5xx status maps to a distinguishable descriptive
failure: the dedicated service-error message for 500, the invalid-credentials
message for 401 (an auth-error message, not an unhandled generic exception),
the rate-limit message for 429, and the generic request failure for every
other 4xx/5xx; the three dedicated messages are pairwise distinct. -/
theorem c8_status_errors (concept : Val) (world : MemeParams → HttpResponse)
    (fs : List String) (fuel : Nat) (p : MemeParams) (resp : HttpResponse)
    (hp : buildParams (stripConcept concept) = .ok p)
    (hw : world p = resp) :
    (resp.statusCode = 500 → create_meme concept world fs fuel = .error svcErrorMsg) ∧
    (resp.statusCode = 401 → create_meme concept world fs fuel = .error authErrorMsg) ∧
    (resp.statusCode = 429 → create_meme concept world fs fuel = .error rateErrorMsg) ∧
    (400 ≤ resp.statusCode → resp.statusCode < 600 →
      resp.statusCode ≠ 500 → resp.statusCode ≠ 401 → resp.statusCode ≠ 429 →
      create_meme concept world fs fuel =
        .error ("Failed to generate meme: HTTP error " ++ toString resp.statusCode)) ∧
    (svcErrorMsg ≠ authErrorMsg ∧ svcErrorMsg ≠ rateErrorMsg ∧ authErrorMsg ≠ rateErrorMsg) := by
  have hmc : memeCore (stripConcept concept) world fs fuel = memeRequest p world fs fuel := by
    unfold memeCore
    rw [hp]
  unfold create_meme
  rw [hmc]
  simp only [memeRequest]
  rw [hw]
  refine ⟨?_, ?_, ?_, ?_, by decide, by decide, by decide⟩
  · intro h; rw [h]; simp
  · intro h; rw [h]; simp
  · intro h; rw [h]; simp
  · intro h400 h600 hn500 hn401 hn429
    simp [hn500, hn401, hn429, h400, h600]

/-- Witness for `c8_status_errors` at a concrete 401 response. -/
theorem c8_status_errors_witness :
    ((401 : Nat) = 500 →
      create_meme okConcept (fun _ => ⟨401, "", ""⟩) [] 5 = .error svcErrorMsg) ∧
    ((401 : Nat) = 401 →
      create_meme okConcept (fun _ => ⟨401, "", ""⟩) [] 5 = .error authErrorMsg) ∧
    ((401 : Nat) = 429 →
      create_meme okConcept (fun _ => ⟨401, "", ""⟩) [] 5 = .error rateErrorMsg) ∧
    (400 ≤ (401 : Nat) → (401 : Nat) < 600 →
      (401 : Nat) ≠ 500 → (401 : Nat) ≠ 401 → (401 : Nat) ≠ 429 →
      create_meme okConcept (fun _ => ⟨401, "", ""⟩) [] 5 =
        .error ("Failed to generate meme: HTTP error " ++ toString (401 : Nat))) ∧
    (svcErrorMsg ≠ authErrorMsg ∧ svcErrorMsg ≠ rateErrorMsg ∧ authErrorMsg ≠ rateErrorMsg) :=
  c8_status_errors okConcept (fun _ => ⟨401, "", ""⟩) [] 5
    ⟨.str "Drake", .str "A", .str "B", .num 50, .str "Impact"⟩ ⟨401, "", ""⟩ rfl rfl

/-- C9: a successful generation with template `T` is saved at
`generated_memes/T.jpg` when that path does not exist, and otherwise at
`generated_memes/T_k.jpg` for the smallest `k ≥ 1` whose path does not
exist (`numberedPath` lists the candidates; the part-two hypothesis says
candidates `0..k-1` — `T.jpg`, `T_1.jpg`, … — all exist); either way the
chosen path is not an existing file, so nothing is overwritten. -/
theorem c9_collision_avoidance (T top bot : String) (world : MemeParams → HttpResponse)
    (fs : List String) (resp : HttpResponse)
    (hw : world ⟨.str T, .str top, .str bot, .num 50, .str "Impact"⟩ = resp)
    (hst : resp.statusCode = 200)
    (hct : strHasSub resp.contentType "image" = true) :
    (∀ fuel : Nat, 0 < fuel →
      fs.contains ("generated_memes/" ++ T ++ ".jpg") = false →
      create_meme (.dict [("template", .str T), ("top_text", .str top),
          ("bottom_text", .str bot)]) world fs fuel =
        .ok ⟨"generated_memes/" ++ T ++ ".jpg",
             "Successfully generated meme! Saved to: " ++ ("generated_memes/" ++ T ++ ".jpg")⟩) ∧
    (∀ fuel k : Nat, k < fuel → 1 ≤ k →
      (∀ j, j < k → fs.contains (numberedPath ("generated_memes/" ++ T) j) = true) →
      fs.contains (numberedPath ("generated_memes/" ++ T) k) = false →
      create_meme (.dict [("template", .str T), ("top_text", .str top),
          ("bottom_text", .str bot)]) world fs fuel =
        .ok ⟨numberedPath ("generated_memes/" ++ T) k,
             "Successfully generated meme! Saved to: "
               ++ numberedPath ("generated_memes/" ++ T) k⟩) := by
  have hbp : buildParams (stripConcept (.dict [("template", .str T), ("top_text", .str top),
      ("bottom_text", .str bot)])) =
      .ok ⟨.str T, .str top, .str bot, .num 50, .str "Impact"⟩ := rfl
  constructor
  · intro fuel hfuel hfree
    have hmc : memeCore (stripConcept (Val.dict [("template", .str T), ("top_text", .str top),
        ("bottom_text", .str bot)])) world fs fuel =
        memeRequest ⟨.str T, .str top, .str bot, .num 50, .str "Impact"⟩ world fs fuel := by
      unfold memeCore
      rw [hbp]
    unfold create_meme
    rw [hmc]
    simp only [memeRequest]
    rw [hw]
    have hpath : findPath fs ("generated_memes/" ++ T) fuel 1
        (("generated_memes/" ++ T) ++ ".jpg") = numberedPath ("generated_memes/" ++ T) 0 :=
      findPath_spec fs ("generated_memes/" ++ T) 0 0 fuel hfuel
        (fun i hi => absurd hi (by omega)) hfree
    simp only [hst, hct, pyStr]
    rw [hpath]
    simp [numberedPath]
  · intro fuel k hfuel hk hbusy hfree
    have hmc : memeCore (stripConcept (Val.dict [("template", .str T), ("top_text", .str top),
        ("bottom_text", .str bot)])) world fs fuel =
        memeRequest ⟨.str T, .str top, .str bot, .num 50, .str "Impact"⟩ world fs fuel := by
      unfold memeCore
      rw [hbp]
    unfold create_meme
    rw [hmc]
    simp only [memeRequest]
    rw [hw]
    have hpath : findPath fs ("generated_memes/" ++ T) fuel 1
        (("generated_memes/" ++ T) ++ ".jpg") = numberedPath ("generated_memes/" ++ T) k := by
      have := findPath_spec fs ("generated_memes/" ++ T) k 0 fuel hfuel
        (fun i hi => by simpa using hbusy i hi) (by simpa using hfree)
      simpa using this
    simp only [hst, hct, pyStr]
    rw [hpath]
    simp

/-- Witness for `c9_collision_avoidance`: with `T.jpg` and `T_1.jpg` already
present, the meme is saved at `T_2.jpg`. -/
theorem c9_collision_avoidance_witness :
    (∀ fuel : Nat, 0 < fuel →
      (["generated_memes/T.jpg", "generated_memes/T_1.jpg"] : List String).contains
          ("generated_memes/" ++ "T" ++ ".jpg") = false →
      create_meme (.dict [("template", .str "T"), ("top_text", .str "A"),
          ("bottom_text", .str "B")]) constImageWorld
          ["generated_memes/T.jpg", "generated_memes/T_1.jpg"] fuel =
        .ok ⟨"generated_memes/" ++ "T" ++ ".jpg",
             "Successfully generated meme! Saved to: " ++ ("generated_memes/" ++ "T" ++ ".jpg")⟩) ∧
    (∀ fuel k : Nat, k < fuel → 1 ≤ k →
      (∀ j, j < k →
        (["generated_memes/T.jpg", "generated_memes/T_1.jpg"] : List String).contains
          (numberedPath ("generated_memes/" ++ "T") j) = true) →
      (["generated_memes/T.jpg", "generated_memes/T_1.jpg"] : List String).contains
          (numberedPath ("generated_memes/" ++ "T") k) = false →
      create_meme (.dict [("template", .str "T"), ("top_text", .str "A"),
          ("bottom_text", .str "B")]) constImageWorld
          ["generated_memes/T.jpg", "generated_memes/T_1.jpg"] fuel =
        .ok ⟨numberedPath ("generated_memes/" ++ "T") k,
             "Successfully generated meme! Saved to: "
               ++ numberedPath ("generated_memes/" ++ "T") k⟩) :=
  c9_collision_avoidance "T" "A" "B" constImageWorld
    ["generated_memes/T.jpg", "generated_memes/T_1.jpg"] ⟨200, "image/jpeg", "IMG"⟩
    rfl rfl (by decide)

/-- C10 (counterexample): stripping is one level only, so the two calls are
not interchangeable when the inner dict itself has a `meme_concept` key:
`create_meme` on the wrapper reads template `A` from the inner dict, while
`create_meme` on the inner dict strips again and reads template `Z`. -/
theorem c10_counterexample :
    lookupKey [("meme_concept", innerConcept)] "meme_concept" = some innerConcept ∧
    create_meme wrappedConcept constImageWorld [] 5 =
      .ok ⟨"generated_memes/A.jpg",
           "Successfully generated meme! Saved to: generated_memes/A.jpg"⟩ ∧
    create_meme innerConcept constImageWorld [] 5 =
      .ok ⟨"generated_memes/Z.jpg",
           "Successfully generated meme! Saved to: generated_memes/Z.jpg"⟩ ∧
    (⟨"generated_memes/A.jpg",
        "Successfully generated meme! Saved to: generated_memes/A.jpg"⟩ : MemeSuccess) ≠
      ⟨"generated_memes/Z.jpg",
        "Successfully generated meme! Saved to: generated_memes/Z.jpg"⟩ :=
  ⟨rfl, rfl, rfl, by decide⟩

/-- C10 (amended): exactly one level of wrapping is stripped: when `d` has a
`meme_concept` key, `create_meme d` reads the argument keys from
`d['meme_concept']` directly (no further stripping), which coincides with
calling `create_meme` on `d['meme_concept']` precisely when that inner value
is not itself a dict containing a `meme_concept` key. -/
theorem c10_one_strip (entries : List (String × Val)) (inner : Val)
    (world : MemeParams → HttpResponse) (fs : List String) (fuel : Nat)
    (h : lookupKey entries "meme_concept" = some inner) :
    create_meme (.dict entries) world fs fuel = memeCore inner world fs fuel ∧
    (stripConcept inner = inner →
      create_meme (.dict entries) world fs fuel = create_meme inner world fs fuel) := by
  have hstrip : stripConcept (.dict entries) = inner := by
    simp [stripConcept, h]
  refine ⟨?_, ?_⟩
  · unfold create_meme
    rw [hstrip]
  · intro hid
    unfold create_meme
    rw [hstrip, hid]

/-- Witness for `c10_one_strip` at a singly-wrapped concept. -/
theorem c10_one_strip_witness :
    create_meme (.dict [("meme_concept", innerConcept2)]) constImageWorld [] 5 =
      memeCore innerConcept2 constImageWorld [] 5 ∧
    (stripConcept innerConcept2 = innerConcept2 →
      create_meme (.dict [("meme_concept", innerConcept2)]) constImageWorld [] 5 =
        create_meme innerConcept2 constImageWorld [] 5) :=
  c10_one_strip [("meme_concept", innerConcept2)] innerConcept2 constImageWorld [] 5 rfl
